import Mathlib

/-!
Verification of the crayon deferred, double-buffered GPU command pipeline.

The definitions below are a shallow embedding of the Rust sources:
`src/video/system.rs` (the VideoSystem coordinator and its lifecycle hooks),
`src/graphics/backend/mod.rs` (the backend Context: capability gate, context
loss, buffer swapping) and `src/graphics/assets/surface.rs` (SurfaceSetup).
Components of the crate that those files use but whose sources are not part
of the excerpt (the generic ObjectPool, the DoubleBuf frame pair, the Frame
command log with its byte arena, the asset Registry, the Capabilities
version type and the error enums) are modelled from the specification; each
such definition carries a doc comment starting with `Modelled from the spec`.
-/

namespace Crayon

/-- A pool handle: slot index plus generation tag (spec section 3). -/
structure Handle where
  index : Nat
  generation : Nat
deriving DecidableEq, Repr

/-- Modelled from the spec: the generic handle pool (`utils::ObjectPool`,
not part of the excerpt). Each slot stores its current generation and an
optional live value; `create` reuses the first free slot or grows the pool,
`get` checks the generation tag, `free` clears the slot and bumps the
generation so stale handles are detectably invalid. -/
structure ObjectPool (P : Type) where
  slots : List (Nat × Option P)
deriving DecidableEq, Repr

namespace ObjectPool

variable {P : Type}

/-- Empty pool. -/
def new : ObjectPool P := ⟨[]⟩

/-- Helper for `create`: walk the slot list, fill the first free slot
(keeping its generation) or append a fresh slot at the end. Returns the
chosen index, the generation of that slot, and the updated slot list. -/
def createAux (p : P) : List (Nat × Option P) → Nat × Nat × List (Nat × Option P)
  | [] => (0, 0, [(0, some p)])
  | (g, none) :: rest => (0, g, (g, some p) :: rest)
  | (g, some q) :: rest =>
      let r := createAux p rest
      (r.1 + 1, r.2.1, (g, some q) :: r.2.2)

/-- Allocates a slot for `p` and returns its handle (spec section 4.1). -/
def create (pool : ObjectPool P) (p : P) : Handle × ObjectPool P :=
  let r := createAux p pool.slots
  (⟨r.1, r.2.1⟩, ⟨r.2.2⟩)

/-- Looks up a handle; returns absence on a stale generation or an
unallocated index (spec section 4.1). -/
def get (pool : ObjectPool P) (h : Handle) : Option P :=
  match pool.slots[h.index]? with
  | some (g, v) => if g = h.generation then v else none
  | none => none

/-- Frees a handle: on a live, generation-matching slot the value is removed
and the generation incremented; otherwise a no-op returning absence
(spec section 4.1). -/
def free (pool : ObjectPool P) (h : Handle) : Option P × ObjectPool P :=
  match pool.slots[h.index]? with
  | some (g, some p) =>
      if g = h.generation then (some p, ⟨pool.slots.set h.index (g + 1, none)⟩)
      else (none, pool)
  | _ => (none, pool)

theorem createAux_get (p : P) (l : List (Nat × Option P)) :
    (createAux p l).2.2[(createAux p l).1]? = some ((createAux p l).2.1, some p) := by
  induction l with
  | nil => simp [createAux]
  | cons hd tl ih =>
      obtain ⟨g, v⟩ := hd
      cases v with
      | none => simp [createAux]
      | some q => simpa [createAux] using ih

/-- Reading back a freshly created handle yields the stored value. -/
theorem get_create (pool : ObjectPool P) (p : P) :
    (pool.create p).2.get (pool.create p).1 = some p := by
  simp [create, get, createAux_get]

/-- `free` succeeds exactly when `get` finds the handle. -/
theorem free_fst_eq_get (pool : ObjectPool P) (h : Handle) :
    (pool.free h).1 = pool.get h := by
  unfold free get
  cases hs : pool.slots[h.index]? with
  | none => simp
  | some gv =>
      obtain ⟨g, v⟩ := gv
      cases v with
      | none => simp
      | some q =>
          by_cases hg : g = h.generation <;> simp [hg]

/-- After a free, looking up the same handle returns absence. -/
theorem get_free (pool : ObjectPool P) (h : Handle) :
    (pool.free h).2.get h = none := by
  unfold free
  cases hs : pool.slots[h.index]? with
  | none => simp [get, hs]
  | some gv =>
      obtain ⟨g, v⟩ := gv
      cases v with
      | none => simp [get, hs]
      | some q =>
          by_cases hg : g = h.generation
          · have hlen : h.index < pool.slots.length :=
              (List.getElem?_eq_some.mp hs).1
            simp only [hg, if_pos rfl]
            simp [get, List.getElem?_set_eq_of_lt, hlen, hg]
          · simp [get, hs, hg]

/-- Freeing a handle that `get` does not find is a no-op. -/
theorem free_of_get_none (pool : ObjectPool P) (h : Handle)
    (hnone : pool.get h = none) : pool.free h = (none, pool) := by
  unfold get at hnone
  unfold free
  cases hs : pool.slots[h.index]? with
  | none => simp
  | some gv =>
      obtain ⟨g, v⟩ := gv
      rw [hs] at hnone
      cases v with
      | none => simp
      | some q =>
          by_cases hg : g = h.generation
          · simp [hg] at hnone
          · simp [hg]

/-- A second free of the same handle is a no-op on the pool. -/
theorem free_free (pool : ObjectPool P) (h : Handle) :
    (pool.free h).2.free h = (none, (pool.free h).2) :=
  free_of_get_none _ _ (get_free pool h)

end ObjectPool

/-- Modelled from the spec: an RGBA color value (`utils::Color`, a math type
treated as an external collaborator). Its content is never inspected by the
pipeline. -/
structure Color where
  r : Nat
  g : Nat
  b : Nat
  a : Nat
deriving DecidableEq, Repr

/-- The all-black color used by the default surface setup. -/
def Color.black : Color := ⟨0, 0, 0, 255⟩

/-- Maximum number of color attachments of a framebuffer
(`graphics::MAX_FRAMEBUFFER_ATTACHMENTS`; the defining module is not part of
the excerpt, the concrete value is taken as 8 — none of the proofs depend
on it). -/
def MAX_FRAMEBUFFER_ATTACHMENTS : Nat := 8

/-- Handle to a render texture (`impl_handle!(RenderTextureHandle)`). -/
abbrev RenderTextureHandle := Handle

/-- Handle to a surface (`impl_handle!(SurfaceHandle)`). -/
abbrev SurfaceHandle := Handle

/-- Handle to a shader. -/
abbrev ShaderHandle := Handle

/-- Handle to a mesh. -/
abbrev MeshHandle := Handle

/-- Handle to a texture. -/
abbrev TextureHandle := Handle

/-- The setup data of a `Surface` (`graphics/assets/surface.rs`). The
`colors` field embeds the Rust fixed-size array
`[Option<RenderTextureHandle>; MAX_FRAMEBUFFER_ATTACHMENTS]` as a list of
that length; `clear_depth` holds the bit pattern of the `f32` payload, which
no operation here inspects. -/
structure SurfaceSetup where
  colors : List (Option RenderTextureHandle)
  depth_stencil : Option RenderTextureHandle
  clear_color : Option Color
  clear_depth : Option Nat
  clear_stencil : Option Int
  order : Nat
  sequence : Bool
deriving DecidableEq, Repr

/-- The `Default` instance of `SurfaceSetup`. -/
def SurfaceSetup.default : SurfaceSetup where
  colors := List.replicate MAX_FRAMEBUFFER_ATTACHMENTS none
  depth_stencil := none
  clear_color := some Color.black
  clear_depth := some 1
  clear_stencil := none
  sequence := false
  order := 0

/-- Modelled from the spec: the error enum of the graphics module
(`graphics/errors.rs` is not part of the excerpt). `TooManyColorAttachments`
is the validation error named by `SurfaceSetup::set_attachments`. -/
inductive SurfaceError where
  | TooManyColorAttachments
deriving DecidableEq, Repr

/-- `SurfaceSetup::set_attachments`: rejects `colors` of length at least
`MAX_FRAMEBUFFER_ATTACHMENTS`; otherwise writes `Some(colors[i])` into slot
`i` for `i < colors.len()` and `None` into every later slot, and stores the
depth/stencil attachment. The Rust `&mut self` receiver returning
`Result<()>` is embedded as a pair of the updated setup and the result. -/
def SurfaceSetup.set_attachments (s : SurfaceSetup)
    (colors : List RenderTextureHandle) (depth_stencil : Option RenderTextureHandle) :
    SurfaceSetup × Except SurfaceError Unit :=
  if colors.length ≥ MAX_FRAMEBUFFER_ATTACHMENTS then
    (s, .error .TooManyColorAttachments)
  else
    ({ s with
        colors := (List.range s.colors.length).map fun i => colors[i]?
        depth_stencil := depth_stencil },
      .ok ())

/-- Surface creation parameters; in the version of the crate that
`video/system.rs` belongs to this is the `SurfaceSetup` record under its
newer name. -/
abbrev SurfaceParams := SurfaceSetup

/-- Modelled from the spec: shader creation parameters (shader layout and
uniform names; the defining file is not part of the excerpt). The spec calls
for a synchronous validation of the parameter set against the shader
sources that can reject a malformed set; the `malformed` flag records the
outcome of that check for a given record. -/
structure ShaderParams where
  uniform_names : List String
  malformed : Bool
deriving DecidableEq, Repr

/-- Modelled from the spec: the video error enum (`video/errors.rs` is not
part of the excerpt). `handleNotFound` is the Not-Found condition produced
by debug-formatting the offending handle; `invalidShader` is the validation
error. -/
inductive VideoError where
  | handleNotFound (index generation : Nat)
  | invalidShader
deriving DecidableEq, Repr

/-- Modelled from the spec: `ShaderParams::validate(&vs, &fs)` surfaces a
validation error for a malformed parameter set, synchronously. -/
def ShaderParams.validate (p : ShaderParams) (vs fs : String) :
    Except VideoError Unit :=
  if p.malformed then .error .invalidShader else .ok ()

/-- Modelled from the spec: mesh creation parameters (vertex/index capacity
and format; the defining file is not part of the excerpt). -/
structure MeshParams where
  vertex_capacity : Nat
  index_capacity : Nat
deriving DecidableEq, Repr

/-- Modelled from the spec: texture creation parameters (dimensions and
format; the defining file is not part of the excerpt). -/
structure TextureParams where
  width : Nat
  height : Nat
deriving DecidableEq, Repr

/-- Modelled from the spec: render texture creation parameters. -/
structure RenderTextureParams where
  width : Nat
  height : Nat
deriving DecidableEq, Repr

/-- An axis-aligned rectangle in texel coordinates (`math::Aabb2<u32>`,
treated as an external collaborator). -/
structure Aabb2 where
  min : Nat × Nat
  max : Nat × Nat
deriving DecidableEq, Repr

/-- Modelled from the spec: the deferred command variants recorded into a
frame (`video/backends/frame.rs` is not part of the excerpt). Bulk-data
commands carry an offset into the frame byte arena instead of the bytes. -/
inductive Command where
  | CreateSurface (h : SurfaceHandle) (p : SurfaceParams)
  | DeleteSurface (h : SurfaceHandle)
  | CreateShader (h : ShaderHandle) (p : ShaderParams) (vs fs : String)
  | DeleteShader (h : ShaderHandle)
  | CreateRenderTexture (h : RenderTextureHandle) (p : RenderTextureParams)
  | DeleteRenderTexture (h : RenderTextureHandle)
  | UpdateVertexBuffer (h : MeshHandle) (offset ptr : Nat)
  | UpdateIndexBuffer (h : MeshHandle) (offset ptr : Nat)
  | UpdateTexture (h : TextureHandle) (area : Aabb2) (ptr : Nat)
deriving DecidableEq, Repr

/-- Modelled from the spec: one frame of deferred work — an ordered command
log `cmds` plus its byte arena `bufs` (spec sections 3 and 4.2). -/
structure Frame where
  cmds : List Command
  bufs : List Nat
deriving DecidableEq, Repr

namespace Frame

/-- The empty frame. -/
def empty : Frame := ⟨[], []⟩

/-- Clears the frame for reuse: command log and arena are emptied. -/
def clear (_ : Frame) : Frame := empty

/-- Modelled from the spec: the byte arena append
(`bufs.extend_from_slice(data)`), returning the offset at which the data
was placed (spec section 4.2). -/
def extend_from_slice (f : Frame) (data : List Nat) : Nat × Frame :=
  (f.bufs.length, { f with bufs := f.bufs ++ data })

/-- Appends one command at the end of the log (`cmds.push(cmd)`). -/
def push (f : Frame) (c : Command) : Frame :=
  { f with cmds := f.cmds ++ [c] }

end Frame

/-- Modelled from the spec: the double-buffered frame pair
(`utils::DoubleBuf`, not part of the excerpt). Producers write the front
frame; the dispatcher reads the back frame; `swap` exchanges the two roles
(spec section 4.3). -/
structure DoubleBuf where
  front : Frame
  back : Frame
deriving DecidableEq, Repr

/-- Exchanges the front and back frames. -/
def DoubleBuf.swap (d : DoubleBuf) : DoubleBuf := ⟨d.back, d.front⟩

/-- Modelled from the spec: the typed asset registry (`res::utils::Registry`,
not part of the excerpt) is a wrapper per asset class built on the handle
pool; for the operations the claims exercise it behaves as the underlying
pool (lookup by generation-tagged handle, free on delete). -/
structure Registry (P : Type) where
  pool : ObjectPool P
deriving DecidableEq, Repr

namespace Registry

variable {P : Type}

/-- Looks an entry up by handle. -/
def get (r : Registry P) (h : Handle) : Option P := r.pool.get h

/-- Removes an entry; a stale or unknown handle is a no-op. -/
def delete (r : Registry P) (h : Handle) : Registry P := ⟨(r.pool.free h).2⟩

end Registry

/-- The state owned by the video sub-system (`VideoState` in
`video/system.rs`): the double-buffered frames, the raw pools for surfaces,
shaders and render textures, and the registries for meshes and textures. -/
structure VideoState where
  frames : DoubleBuf
  surfaces : ObjectPool SurfaceParams
  shaders : ObjectPool ShaderParams
  meshes : Registry MeshParams
  textures : Registry TextureParams
  render_textures : ObjectPool RenderTextureParams
deriving DecidableEq, Repr

namespace VideoState

/-- `VideoState::new()`: both frames empty, all pools and registries empty. -/
def new : VideoState where
  frames := ⟨Frame.empty, Frame.empty⟩
  surfaces := ObjectPool.new
  shaders := ObjectPool.new
  meshes := ⟨ObjectPool.new⟩
  textures := ⟨ObjectPool.new⟩
  render_textures := ObjectPool.new

/-- `VideoSystem::create_surface`: allocates a pool slot for a copy of the
params, pushes a `CreateSurface` command into the front frame and returns
the handle. -/
def create_surface (s : VideoState) (params : SurfaceParams) :
    SurfaceHandle × VideoState :=
  let r := s.surfaces.create params
  (r.1, { s with
      surfaces := r.2
      frames := { s.frames with
        front := s.frames.front.push (Command.CreateSurface r.1 params) } })

/-- `VideoSystem::surface`: pure read of the surface pool. -/
def surface (s : VideoState) (handle : SurfaceHandle) : Option SurfaceParams :=
  s.surfaces.get handle

/-- `VideoSystem::delete_surface`: frees the pool slot and pushes a
`DeleteSurface` command only when the free returned a value. -/
def delete_surface (s : VideoState) (handle : SurfaceHandle) : VideoState :=
  let r := s.surfaces.free handle
  if r.1.isSome then
    { s with
        surfaces := r.2
        frames := { s.frames with
          front := s.frames.front.push (Command.DeleteSurface handle) } }
  else
    { s with surfaces := r.2 }

/-- `VideoSystem::create_shader`: validates the params against the shader
sources first; on success allocates a pool slot for a clone of the params
and pushes a `CreateShader` command. -/
def create_shader (s : VideoState) (params : ShaderParams) (vs fs : String) :
    Except VideoError ShaderHandle × VideoState :=
  match params.validate vs fs with
  | .error e => (.error e, s)
  | .ok _ =>
      let r := s.shaders.create params
      (.ok r.1, { s with
          shaders := r.2
          frames := { s.frames with
            front := s.frames.front.push (Command.CreateShader r.1 params vs fs) } })

/-- `VideoSystem::shader`: pure read of the shader pool. -/
def shader (s : VideoState) (handle : ShaderHandle) : Option ShaderParams :=
  s.shaders.get handle

/-- `VideoSystem::delete_shader`: frees the pool slot and pushes a
`DeleteShader` command only when the free returned a value. -/
def delete_shader (s : VideoState) (handle : ShaderHandle) : VideoState :=
  let r := s.shaders.free handle
  if r.1.isSome then
    { s with
        shaders := r.2
        frames := { s.frames with
          front := s.frames.front.push (Command.DeleteShader handle) } }
  else
    { s with shaders := r.2 }

/-- `VideoSystem::update_vertex_buffer`: if the registry finds the handle,
appends the data to the front arena and pushes an `UpdateVertexBuffer`
command carrying the returned offset; a stale or unknown handle yields the
Not-Found error and changes nothing. -/
def update_vertex_buffer (s : VideoState) (handle : MeshHandle)
    (offset : Nat) (data : List Nat) : Except VideoError Unit × VideoState :=
  match s.meshes.get handle with
  | some _ =>
      let r := s.frames.front.extend_from_slice data
      (.ok (), { s with
          frames := { s.frames with
            front := r.2.push (Command.UpdateVertexBuffer handle offset r.1) } })
  | none => (.error (.handleNotFound handle.index handle.generation), s)

/-- `VideoSystem::update_index_buffer`: same shape as
`update_vertex_buffer` with an `UpdateIndexBuffer` command. -/
def update_index_buffer (s : VideoState) (handle : MeshHandle)
    (offset : Nat) (data : List Nat) : Except VideoError Unit × VideoState :=
  match s.meshes.get handle with
  | some _ =>
      let r := s.frames.front.extend_from_slice data
      (.ok (), { s with
          frames := { s.frames with
            front := r.2.push (Command.UpdateIndexBuffer handle offset r.1) } })
  | none => (.error (.handleNotFound handle.index handle.generation), s)

/-- `VideoSystem::update_texture`: if the texture registry finds the handle,
appends the data to the front arena and pushes an `UpdateTexture` command
with the returned offset; otherwise the Not-Found error, changing nothing. -/
def update_texture (s : VideoState) (handle : TextureHandle)
    (area : Aabb2) (data : List Nat) : Except VideoError Unit × VideoState :=
  match s.textures.get handle with
  | some _ =>
      let r := s.frames.front.extend_from_slice data
      (.ok (), { s with
          frames := { s.frames with
            front := r.2.push (Command.UpdateTexture handle area r.1) } })
  | none => (.error (.handleNotFound handle.index handle.generation), s)

/-- `VideoSystem::create_render_texture`: allocates a pool slot, pushes a
`CreateRenderTexture` command, returns the handle. -/
def create_render_texture (s : VideoState) (params : RenderTextureParams) :
    RenderTextureHandle × VideoState :=
  let r := s.render_textures.create params
  (r.1, { s with
      render_textures := r.2
      frames := { s.frames with
        front := s.frames.front.push (Command.CreateRenderTexture r.1 params) } })

/-- `VideoSystem::render_texture`: pure read of the render texture pool. -/
def render_texture (s : VideoState) (handle : RenderTextureHandle) :
    Option RenderTextureParams :=
  s.render_textures.get handle

/-- `VideoSystem::delete_render_texture`: frees the pool slot and pushes a
`DeleteRenderTexture` command only when the free returned a value. -/
def delete_render_texture (s : VideoState) (handle : RenderTextureHandle) :
    VideoState :=
  let r := s.render_textures.free handle
  if r.1.isSome then
    { s with
        render_textures := r.2
        frames := { s.frames with
          front := s.frames.front.push (Command.DeleteRenderTexture handle) } }
  else
    { s with render_textures := r.2 }

end VideoState

/-- Observable side effects of the lifecycle hooks: the window resize call
and the hand-off of a command log to the backend device, with the
framebuffer dimensions the dispatch runs against. -/
inductive Effect where
  | resize (dims : Nat × Nat)
  | dispatch (cmds : List Command) (dims : Nat × Nat)
deriving DecidableEq, Repr

/-- `Lifecycle::on_pre_update` (`video/system.rs`): swaps the double buffer
and clears the new front frame. -/
def on_pre_update (s : VideoState) : VideoState :=
  let d := s.frames.swap
  { s with frames := { d with front := d.front.clear } }

/-- `Lifecycle::on_post_update` (`video/system.rs`): reads the current
framebuffer pixel dimensions; if they differ from `last_dimensions`,
records them and triggers the window resize; then dispatches the back frame
against `last_dimensions` (the new value when a resize happened). The back
frame is cleared by the dispatch (spec section 4.3). Returns the updated
`last_dimensions`, the updated state and the effect trace in order. -/
def on_post_update (last_dimensions : Nat × Nat) (dimensions : Nat × Nat)
    (s : VideoState) : (Nat × Nat) × VideoState × List Effect :=
  let cleared : VideoState :=
    { s with frames := { s.frames with back := s.frames.back.clear } }
  if dimensions ≠ last_dimensions then
    (dimensions, cleared,
      [Effect.resize dimensions, Effect.dispatch s.frames.back.cmds dimensions])
  else
    (last_dimensions, cleared,
      [Effect.dispatch s.frames.back.cmds last_dimensions])

/-- The OpenGL version report (`backend/capabilities.rs`, whose body is not
part of the excerpt): a desktop GL or an ES version number. -/
inductive Version where
  | GL (major minor : Nat)
  | ES (major minor : Nat)
deriving DecidableEq, Repr

/-- Modelled from the spec: the strict order on `Version` used by
`check_minimal_requirements` (the `PartialOrd` impl lives in the missing
`capabilities.rs`). The checks pair a GL floor with an ES floor and bail
when the version is below both, which per the spec means the version meets
neither floor; so within a family versions compare lexicographically, and a
version counts as below every floor of the other family. -/
def Version.lt : Version → Version → Bool
  | .GL a b, .GL c d => a < c || (a = c && b < d)
  | .ES a b, .ES c d => a < c || (a = c && b < d)
  | _, _ => true

/-- The extension flags consulted by `check_minimal_requirements`
(`backend/capabilities.rs`; the flag names are read off the checks in
`backend/mod.rs`). -/
structure Extensions where
  gl_arb_vertex_buffer_object : Bool
  gl_arb_map_buffer_range : Bool
  gl_arb_shader_objects : Bool
  gl_arb_vertex_shader : Bool
  gl_arb_fragment_shader : Bool
  gl_ext_framebuffer_object : Bool
  gl_arb_framebuffer_object : Bool
  gl_ext_framebuffer_blit : Bool
  gl_arb_uniform_buffer_object : Bool
  gl_arb_vertex_array_object : Bool
  gl_apple_vertex_array_object : Bool
  gl_oes_vertex_array_object : Bool
deriving DecidableEq, Repr

/-- A capability snapshot: reported version plus extension set. -/
structure Capabilities where
  version : Version
  extensions : Extensions
deriving DecidableEq, Repr

/-- The bail condition of the first check of `check_minimal_requirements`
(vertex buffer objects), verbatim from the source. -/
def vbo_unsupported (caps : Capabilities) : Bool :=
  Version.lt caps.version (.GL 1 5) && Version.lt caps.version (.ES 2 0) &&
  (!caps.extensions.gl_arb_vertex_buffer_object ||
   !caps.extensions.gl_arb_map_buffer_range)

/-- The bail condition of the second check (vertex/fragment shaders). -/
def shader_objects_unsupported (caps : Capabilities) : Bool :=
  Version.lt caps.version (.GL 2 0) && Version.lt caps.version (.ES 2 0) &&
  (!caps.extensions.gl_arb_shader_objects ||
   !caps.extensions.gl_arb_vertex_shader ||
   !caps.extensions.gl_arb_fragment_shader)

/-- The bail condition of the third check (framebuffer objects). -/
def fbo_unsupported (caps : Capabilities) : Bool :=
  Version.lt caps.version (.GL 3 0) && Version.lt caps.version (.ES 2 0) &&
  !caps.extensions.gl_ext_framebuffer_object &&
  !caps.extensions.gl_arb_framebuffer_object

/-- The bail condition of the fourth check (framebuffer blit). -/
def blit_unsupported (caps : Capabilities) : Bool :=
  Version.lt caps.version (.ES 2 0) && Version.lt caps.version (.GL 3 0) &&
  !caps.extensions.gl_ext_framebuffer_blit

/-- The bail condition of the fifth check (uniform buffer objects). -/
def ubo_unsupported (caps : Capabilities) : Bool :=
  Version.lt caps.version (.GL 3 1) && Version.lt caps.version (.ES 3 0) &&
  !caps.extensions.gl_arb_uniform_buffer_object

/-- The bail condition of the sixth check (vertex array objects). -/
def vao_unsupported (caps : Capabilities) : Bool :=
  Version.lt caps.version (.GL 3 0) && Version.lt caps.version (.ES 3 0) &&
  !caps.extensions.gl_arb_vertex_array_object &&
  !caps.extensions.gl_apple_vertex_array_object &&
  !caps.extensions.gl_oes_vertex_array_object

/-- `Context::check_minimal_requirements` (`graphics/backend/mod.rs`): the
six capability floor checks in source order, each bailing (early return)
when the version is below both the GL and the ES floor and the named
extensions are absent. -/
def check_minimal_requirements (caps : Capabilities) : Except String Unit :=
  if vbo_unsupported caps then
    .error ("OpenGL implementation does not support vertex buffer objects.")
  else if shader_objects_unsupported caps then
    .error ("OpenGL implementation does not support vertex/fragment shaders.")
  else if fbo_unsupported caps then
    .error ("OpenGL implementation does not support framebuffers.")
  else if blit_unsupported caps then
    .error ("OpenGL implementation does not support blitting framebuffers.")
  else if ubo_unsupported caps then
    .error ("OpenGL implementation does not support uniform buffer object.")
  else if vao_unsupported caps then
    .error ("OpenGL implementation does not support vertex array object.")
  else
    .ok ()

/-- The backend context (`graphics/backend/mod.rs`): the context-lost flag
and the negotiated capability snapshot. The window and device members hold
no state the claims touch. -/
structure Context where
  context_lost : Bool
  capabilities : Capabilities
deriving DecidableEq, Repr

namespace Context

/-- `Context::new`: parses the capability snapshot, runs the minimal
requirement checks and only then constructs the context with the lost flag
clear. -/
def new (caps : Capabilities) : Except String Context :=
  match check_minimal_requirements caps with
  | .error e => .error e
  | .ok _ => .ok { context_lost := false, capabilities := caps }

/-- `Context::rebuild`: the source body is `Ok(())` — it receives only the
window, touches no context state, and in particular leaves any context-lost
flag as it was. Embedded as the (identity) action on the context state. -/
def rebuild (c : Context) : Context := c

/-- Result of the native `window.swap_buffers()` call. -/
inductive NativeSwap where
  | ok
  | contextLost
  | otherError (msg : String)
deriving DecidableEq, Repr

/-- Modelled from the spec: the backend error enum (`backend/errors.rs` is
not part of the excerpt). `ErrorKind::ContextLost` is a distinguished
variant; every other failure is chained onto a message. -/
inductive GError where
  | contextLost
  | other (msg : String)
deriving DecidableEq, Repr

/-- Outcome of `Context::swap_buffers`: the updated context, the returned
result, and whether the native swap was invoked at all. -/
structure SwapOutcome where
  ctx : Context
  result : Except GError Unit
  native_invoked : Bool
deriving Repr

/-- `Context::swap_buffers`: when the context-lost flag is already set, bail
with `ContextLost` before touching the native window; otherwise run the
native swap, and when it reports a lost context, set the flag and return
`ContextLost`; any other native error is chained as an ordinary failure. -/
def swap_buffers (c : Context) (native : NativeSwap) : SwapOutcome :=
  if c.context_lost then
    { ctx := c, result := .error .contextLost, native_invoked := false }
  else
    match native with
    | .contextLost =>
        { ctx := { c with context_lost := true }
          result := .error .contextLost
          native_invoked := true }
    | .ok => { ctx := c, result := .ok (), native_invoked := true }
    | .otherError msg =>
        { ctx := c
          result := .error (.other ("unable to swap buffers: " ++ msg))
          native_invoked := true }

end Context

/-- One producer-side mutator call of the coordinator API, as issued within
one tick (spec section 6). -/
inductive Call where
  | createSurface (p : SurfaceParams)
  | deleteSurface (h : SurfaceHandle)
  | createShader (p : ShaderParams) (vs fs : String)
  | deleteShader (h : ShaderHandle)
  | createRenderTexture (p : RenderTextureParams)
  | deleteRenderTexture (h : RenderTextureHandle)
  | updateVertexBuffer (h : MeshHandle) (offset : Nat) (data : List Nat)
  | updateIndexBuffer (h : MeshHandle) (offset : Nat) (data : List Nat)
  | updateTexture (h : TextureHandle) (area : Aabb2) (data : List Nat)
deriving Repr

namespace Call

/-- The state after performing one producer call (discarding the value the
call returns to the producer). -/
def apply (s : VideoState) : Call → VideoState
  | .createSurface p => (s.create_surface p).2
  | .deleteSurface h => s.delete_surface h
  | .createShader p vs fs => (s.create_shader p vs fs).2
  | .deleteShader h => s.delete_shader h
  | .createRenderTexture p => (s.create_render_texture p).2
  | .deleteRenderTexture h => s.delete_render_texture h
  | .updateVertexBuffer h o d => (s.update_vertex_buffer h o d).2
  | .updateIndexBuffer h o d => (s.update_index_buffer h o d).2
  | .updateTexture h a d => (s.update_texture h a d).2

/-- Whether the call succeeds in state `s` (creates always succeed except a
failed shader validation; deletes succeed when the free finds the handle;
updates succeed when the registry finds the handle). -/
def ok (s : VideoState) : Call → Bool
  | .createSurface _ => true
  | .deleteSurface h => (s.surfaces.free h).1.isSome
  | .createShader p vs fs => (p.validate vs fs).isOk
  | .deleteShader h => (s.shaders.free h).1.isSome
  | .createRenderTexture _ => true
  | .deleteRenderTexture h => (s.render_textures.free h).1.isSome
  | .updateVertexBuffer h _ _ => (s.meshes.get h).isSome
  | .updateIndexBuffer h _ _ => (s.meshes.get h).isSome
  | .updateTexture h _ _ => (s.textures.get h).isSome

/-- The commands the call appends to the front log in state `s`: exactly one
on success, none on failure. -/
def cmds (s : VideoState) : Call → List Command
  | .createSurface p =>
      [Command.CreateSurface (s.surfaces.create p).1 p]
  | .deleteSurface h =>
      if (s.surfaces.free h).1.isSome then [Command.DeleteSurface h] else []
  | .createShader p vs fs =>
      if (p.validate vs fs).isOk then
        [Command.CreateShader (s.shaders.create p).1 p vs fs]
      else []
  | .deleteShader h =>
      if (s.shaders.free h).1.isSome then [Command.DeleteShader h] else []
  | .createRenderTexture p =>
      [Command.CreateRenderTexture (s.render_textures.create p).1 p]
  | .deleteRenderTexture h =>
      if (s.render_textures.free h).1.isSome then
        [Command.DeleteRenderTexture h]
      else []
  | .updateVertexBuffer h o _ =>
      if (s.meshes.get h).isSome then
        [Command.UpdateVertexBuffer h o s.frames.front.bufs.length]
      else []
  | .updateIndexBuffer h o _ =>
      if (s.meshes.get h).isSome then
        [Command.UpdateIndexBuffer h o s.frames.front.bufs.length]
      else []
  | .updateTexture h a _ =>
      if (s.textures.get h).isSome then
        [Command.UpdateTexture h a s.frames.front.bufs.length]
      else []

end Call

/-- Runs a sequence of producer calls, threading the state. -/
def run_calls (s : VideoState) : List Call → VideoState
  | [] => s
  | c :: cs => run_calls (c.apply s) cs

/-- The commands the calls append, in call order. -/
def call_trace (s : VideoState) : List Call → List Command
  | [] => []
  | c :: cs => c.cmds s ++ call_trace (c.apply s) cs

namespace VideoState

theorem delete_surface_surfaces (s : VideoState) (h : SurfaceHandle) :
    (s.delete_surface h).surfaces = (s.surfaces.free h).2 := by
  unfold delete_surface
  by_cases hf : (s.surfaces.free h).1.isSome <;> simp [hf]

theorem delete_shader_shaders (s : VideoState) (h : ShaderHandle) :
    (s.delete_shader h).shaders = (s.shaders.free h).2 := by
  unfold delete_shader
  by_cases hf : (s.shaders.free h).1.isSome <;> simp [hf]

theorem delete_render_texture_pool (s : VideoState) (h : RenderTextureHandle) :
    (s.delete_render_texture h).render_textures = (s.render_textures.free h).2 := by
  unfold delete_render_texture
  by_cases hf : (s.render_textures.free h).1.isSome <;> simp [hf]

theorem delete_surface_cmds (s : VideoState) (h : SurfaceHandle) :
    (s.delete_surface h).frames.front.cmds =
      if (s.surfaces.free h).1.isSome then
        s.frames.front.cmds ++ [Command.DeleteSurface h]
      else s.frames.front.cmds := by
  unfold delete_surface
  by_cases hf : (s.surfaces.free h).1.isSome <;> simp [hf, Frame.push]

theorem delete_shader_cmds (s : VideoState) (h : ShaderHandle) :
    (s.delete_shader h).frames.front.cmds =
      if (s.shaders.free h).1.isSome then
        s.frames.front.cmds ++ [Command.DeleteShader h]
      else s.frames.front.cmds := by
  unfold delete_shader
  by_cases hf : (s.shaders.free h).1.isSome <;> simp [hf, Frame.push]

theorem delete_render_texture_cmds (s : VideoState) (h : RenderTextureHandle) :
    (s.delete_render_texture h).frames.front.cmds =
      if (s.render_textures.free h).1.isSome then
        s.frames.front.cmds ++ [Command.DeleteRenderTexture h]
      else s.frames.front.cmds := by
  unfold delete_render_texture
  by_cases hf : (s.render_textures.free h).1.isSome <;> simp [hf, Frame.push]

end VideoState

/-- C1: for each raw-pool resource kind (surface, shader, render texture),
`delete_X h` pushes a `DeleteX` command exactly when the pool free of `h`
succeeded, and a second `delete_X h` leaves the command log unchanged, so at
most one `DeleteX` command per handle reaches the backend. -/
theorem delete_pushes_iff_free_succeeded (s : VideoState) (h : Handle) :
    ((s.delete_surface h).frames.front.cmds =
        if (s.surfaces.free h).1.isSome then
          s.frames.front.cmds ++ [Command.DeleteSurface h]
        else s.frames.front.cmds)
    ∧ ((s.delete_surface h).delete_surface h).frames.front.cmds =
        (s.delete_surface h).frames.front.cmds
    ∧ ((s.delete_shader h).frames.front.cmds =
        if (s.shaders.free h).1.isSome then
          s.frames.front.cmds ++ [Command.DeleteShader h]
        else s.frames.front.cmds)
    ∧ ((s.delete_shader h).delete_shader h).frames.front.cmds =
        (s.delete_shader h).frames.front.cmds
    ∧ ((s.delete_render_texture h).frames.front.cmds =
        if (s.render_textures.free h).1.isSome then
          s.frames.front.cmds ++ [Command.DeleteRenderTexture h]
        else s.frames.front.cmds)
    ∧ ((s.delete_render_texture h).delete_render_texture h).frames.front.cmds =
        (s.delete_render_texture h).frames.front.cmds := by
  refine ⟨VideoState.delete_surface_cmds s h, ?_,
          VideoState.delete_shader_cmds s h, ?_,
          VideoState.delete_render_texture_cmds s h, ?_⟩
  · rw [VideoState.delete_surface_cmds, VideoState.delete_surface_surfaces,
      ObjectPool.free_free]
    simp
  · rw [VideoState.delete_shader_cmds, VideoState.delete_shader_shaders,
      ObjectPool.free_free]
    simp
  · rw [VideoState.delete_render_texture_cmds,
      VideoState.delete_render_texture_pool, ObjectPool.free_free]
    simp

/-- C7: a successful `create_surface p` pushes exactly one `CreateSurface`
command carrying the returned handle and a copy of `p`, returns that handle,
and a subsequent `surface handle` read finds `some p` in the pool; the byte
arena is untouched. -/
theorem create_surface_roundtrip (s : VideoState) (p : SurfaceParams) :
    ((s.create_surface p).2.frames.front.cmds =
        s.frames.front.cmds ++ [Command.CreateSurface (s.create_surface p).1 p])
    ∧ (s.create_surface p).2.surface (s.create_surface p).1 = some p
    ∧ (s.create_surface p).2.frames.front.bufs = s.frames.front.bufs := by
  refine ⟨?_, ?_, ?_⟩
  · simp [VideoState.create_surface, Frame.push]
  · simpa [VideoState.create_surface, VideoState.surface] using
      ObjectPool.get_create s.surfaces p
  · simp [VideoState.create_surface, Frame.push]

theorem apply_front_cmds (s : VideoState) (c : Call) :
    (c.apply s).frames.front.cmds = s.frames.front.cmds ++ c.cmds s := by
  cases c with
  | createSurface p =>
      simp [Call.apply, Call.cmds, VideoState.create_surface, Frame.push]
  | deleteSurface h =>
      by_cases hf : (s.surfaces.free h).1.isSome <;>
        simp [Call.apply, Call.cmds, VideoState.delete_surface, Frame.push, hf]
  | createShader p vs fs =>
      cases hv : p.validate vs fs <;>
        simp [Call.apply, Call.cmds, VideoState.create_shader, Frame.push, hv,
          Except.isOk, Except.toBool]
  | deleteShader h =>
      by_cases hf : (s.shaders.free h).1.isSome <;>
        simp [Call.apply, Call.cmds, VideoState.delete_shader, Frame.push, hf]
  | createRenderTexture p =>
      simp [Call.apply, Call.cmds, VideoState.create_render_texture, Frame.push]
  | deleteRenderTexture h =>
      by_cases hf : (s.render_textures.free h).1.isSome <;>
        simp [Call.apply, Call.cmds, VideoState.delete_render_texture, Frame.push,
          hf]
  | updateVertexBuffer h o d =>
      cases hg : s.meshes.get h <;>
        simp [Call.apply, Call.cmds, VideoState.update_vertex_buffer, Frame.push,
          Frame.extend_from_slice, hg]
  | updateIndexBuffer h o d =>
      cases hg : s.meshes.get h <;>
        simp [Call.apply, Call.cmds, VideoState.update_index_buffer, Frame.push,
          Frame.extend_from_slice, hg]
  | updateTexture h a d =>
      cases hg : s.textures.get h <;>
        simp [Call.apply, Call.cmds, VideoState.update_texture, Frame.push,
          Frame.extend_from_slice, hg]

theorem call_cmds_length (s : VideoState) (c : Call) :
    (c.ok s = true → (c.cmds s).length = 1) ∧
    (c.ok s = false → c.cmds s = []) := by
  cases c with
  | createSurface p => simp [Call.ok, Call.cmds]
  | deleteSurface h =>
      by_cases hf : (s.surfaces.free h).1.isSome <;> simp [Call.ok, Call.cmds, hf]
  | createShader p vs fs =>
      by_cases hv : (p.validate vs fs).isOk <;> simp [Call.ok, Call.cmds, hv]
  | deleteShader h =>
      by_cases hf : (s.shaders.free h).1.isSome <;> simp [Call.ok, Call.cmds, hf]
  | createRenderTexture p => simp [Call.ok, Call.cmds]
  | deleteRenderTexture h =>
      by_cases hf : (s.render_textures.free h).1.isSome <;>
        simp [Call.ok, Call.cmds, hf]
  | updateVertexBuffer h o d =>
      cases hg : s.meshes.get h <;> simp [Call.ok, Call.cmds, hg]
  | updateIndexBuffer h o d =>
      cases hg : s.meshes.get h <;> simp [Call.ok, Call.cmds, hg]
  | updateTexture h a d =>
      cases hg : s.textures.get h <;> simp [Call.ok, Call.cmds, hg]

theorem run_calls_front_cmds (cs : List Call) (s : VideoState) :
    (run_calls s cs).frames.front.cmds =
      s.frames.front.cmds ++ call_trace s cs := by
  induction cs generalizing s with
  | nil => simp [run_calls, call_trace]
  | cons c rest ih =>
      calc (run_calls (c.apply s) rest).frames.front.cmds
          = (c.apply s).frames.front.cmds ++ call_trace (c.apply s) rest :=
            ih (c.apply s)
        _ = s.frames.front.cmds ++ (c.cmds s ++ call_trace (c.apply s) rest) := by
            rw [apply_front_cmds]; simp
        _ = s.frames.front.cmds ++ call_trace s (c :: rest) := rfl

/-- C2: running any sequence of producer mutator calls within one tick
appends the per-call commands to the front log in exactly call order, each
call contributing exactly one command when it succeeds and none when it
fails; after the next swap (pre-update) the post-update hook hands exactly
that command list, in that order, to the backend for dispatch — FIFO per
frame. -/
theorem run_calls_fifo (s : VideoState) (cs : List Call) :
    (run_calls s cs).frames.front.cmds = s.frames.front.cmds ++ call_trace s cs
    ∧ (∀ s' : VideoState, ∀ c : Call,
        (c.ok s' = true → (c.cmds s').length = 1) ∧
        (c.ok s' = false → c.cmds s' = []))
    ∧ ∀ last dims : Nat × Nat,
        Effect.dispatch (s.frames.front.cmds ++ call_trace s cs)
            (on_post_update last dims (on_pre_update (run_calls s cs))).1
          ∈ (on_post_update last dims (on_pre_update (run_calls s cs))).2.2 := by
  refine ⟨run_calls_front_cmds cs s, fun s' c => call_cmds_length s' c, ?_⟩
  intro last dims
  by_cases hd : dims = last
  · simp [on_post_update, on_pre_update, DoubleBuf.swap, hd,
      run_calls_front_cmds cs s]
  · simp [on_post_update, on_pre_update, DoubleBuf.swap, hd,
      run_calls_front_cmds cs s]

/-- Witness for C2: from a fresh state, a create-surface call followed by a
delete of the returned handle leaves exactly those two commands in the
front log, in call order. -/
theorem run_calls_fifo_witness :
    (run_calls VideoState.new
        [Call.createSurface SurfaceSetup.default,
         Call.deleteSurface ⟨0, 0⟩]).frames.front.cmds =
      [Command.CreateSurface ⟨0, 0⟩ SurfaceSetup.default,
       Command.DeleteSurface ⟨0, 0⟩] := by
  rw [(run_calls_fifo VideoState.new
    [Call.createSurface SurfaceSetup.default, Call.deleteSurface ⟨0, 0⟩]).1]
  rfl

theorem vbo_floor (caps : Capabilities) :
    (!vbo_unsupported caps) =
      (!Version.lt caps.version (.GL 1 5) || !Version.lt caps.version (.ES 2 0) ||
       (caps.extensions.gl_arb_vertex_buffer_object &&
        caps.extensions.gl_arb_map_buffer_range)) := by
  unfold vbo_unsupported
  generalize Version.lt caps.version (Version.GL 1 5) = a
  generalize Version.lt caps.version (Version.ES 2 0) = b
  generalize caps.extensions.gl_arb_vertex_buffer_object = x
  generalize caps.extensions.gl_arb_map_buffer_range = y
  cases a <;> cases b <;> cases x <;> cases y <;> rfl

theorem shader_objects_floor (caps : Capabilities) :
    (!shader_objects_unsupported caps) =
      (!Version.lt caps.version (.GL 2 0) || !Version.lt caps.version (.ES 2 0) ||
       (caps.extensions.gl_arb_shader_objects &&
        caps.extensions.gl_arb_vertex_shader &&
        caps.extensions.gl_arb_fragment_shader)) := by
  unfold shader_objects_unsupported
  generalize Version.lt caps.version (Version.GL 2 0) = a
  generalize Version.lt caps.version (Version.ES 2 0) = b
  generalize caps.extensions.gl_arb_shader_objects = x
  generalize caps.extensions.gl_arb_vertex_shader = y
  generalize caps.extensions.gl_arb_fragment_shader = z
  cases a <;> cases b <;> cases x <;> cases y <;> cases z <;> rfl

theorem fbo_floor (caps : Capabilities) :
    (!fbo_unsupported caps) =
      (!Version.lt caps.version (.GL 3 0) || !Version.lt caps.version (.ES 2 0) ||
       (caps.extensions.gl_ext_framebuffer_object ||
        caps.extensions.gl_arb_framebuffer_object)) := by
  unfold fbo_unsupported
  generalize Version.lt caps.version (Version.GL 3 0) = a
  generalize Version.lt caps.version (Version.ES 2 0) = b
  generalize caps.extensions.gl_ext_framebuffer_object = x
  generalize caps.extensions.gl_arb_framebuffer_object = y
  cases a <;> cases b <;> cases x <;> cases y <;> rfl

theorem blit_floor (caps : Capabilities) :
    (!blit_unsupported caps) =
      (!Version.lt caps.version (.ES 2 0) || !Version.lt caps.version (.GL 3 0) ||
       caps.extensions.gl_ext_framebuffer_blit) := by
  unfold blit_unsupported
  generalize Version.lt caps.version (Version.ES 2 0) = a
  generalize Version.lt caps.version (Version.GL 3 0) = b
  generalize caps.extensions.gl_ext_framebuffer_blit = x
  cases a <;> cases b <;> cases x <;> rfl

theorem ubo_floor (caps : Capabilities) :
    (!ubo_unsupported caps) =
      (!Version.lt caps.version (.GL 3 1) || !Version.lt caps.version (.ES 3 0) ||
       caps.extensions.gl_arb_uniform_buffer_object) := by
  unfold ubo_unsupported
  generalize Version.lt caps.version (Version.GL 3 1) = a
  generalize Version.lt caps.version (Version.ES 3 0) = b
  generalize caps.extensions.gl_arb_uniform_buffer_object = x
  cases a <;> cases b <;> cases x <;> rfl

theorem vao_floor (caps : Capabilities) :
    (!vao_unsupported caps) =
      (!Version.lt caps.version (.GL 3 0) || !Version.lt caps.version (.ES 3 0) ||
       (caps.extensions.gl_arb_vertex_array_object ||
        caps.extensions.gl_apple_vertex_array_object ||
        caps.extensions.gl_oes_vertex_array_object)) := by
  unfold vao_unsupported
  generalize Version.lt caps.version (Version.GL 3 0) = a
  generalize Version.lt caps.version (Version.ES 3 0) = b
  generalize caps.extensions.gl_arb_vertex_array_object = x
  generalize caps.extensions.gl_apple_vertex_array_object = y
  generalize caps.extensions.gl_oes_vertex_array_object = z
  cases a <;> cases b <;> cases x <;> cases y <;> cases z <;> rfl

theorem check_isOk (caps : Capabilities) :
    (check_minimal_requirements caps).isOk =
      (!vbo_unsupported caps && !shader_objects_unsupported caps &&
       !fbo_unsupported caps && !blit_unsupported caps &&
       !ubo_unsupported caps && !vao_unsupported caps) := by
  unfold check_minimal_requirements
  by_cases h1 : vbo_unsupported caps <;>
    by_cases h2 : shader_objects_unsupported caps <;>
    by_cases h3 : fbo_unsupported caps <;>
    by_cases h4 : blit_unsupported caps <;>
    by_cases h5 : ubo_unsupported caps <;>
    by_cases h6 : vao_unsupported caps <;>
    simp [h1, h2, h3, h4, h5, h6, Except.isOk, Except.toBool]

theorem new_isOk (caps : Capabilities) :
    (Context.new caps).isOk = (check_minimal_requirements caps).isOk := by
  unfold Context.new
  cases h : check_minimal_requirements caps <;>
    simp [h, Except.isOk, Except.toBool]

/-- C3: `Context::new` succeeds exactly when each of the six capability
floors is met, where every floor is a disjunction — the reported version
meets the GL or the ES minimum, or the named extensions are present — so no
floor ever requires version and extension together; on success the context
starts with the lost flag clear and the negotiated snapshot, on failure no
context is built. -/
theorem capability_gate (caps : Capabilities) :
    ((Context.new caps).isOk =
      ((!Version.lt caps.version (.GL 1 5) || !Version.lt caps.version (.ES 2 0) ||
        (caps.extensions.gl_arb_vertex_buffer_object &&
         caps.extensions.gl_arb_map_buffer_range)) &&
       (!Version.lt caps.version (.GL 2 0) || !Version.lt caps.version (.ES 2 0) ||
        (caps.extensions.gl_arb_shader_objects &&
         caps.extensions.gl_arb_vertex_shader &&
         caps.extensions.gl_arb_fragment_shader)) &&
       (!Version.lt caps.version (.GL 3 0) || !Version.lt caps.version (.ES 2 0) ||
        (caps.extensions.gl_ext_framebuffer_object ||
         caps.extensions.gl_arb_framebuffer_object)) &&
       (!Version.lt caps.version (.ES 2 0) || !Version.lt caps.version (.GL 3 0) ||
        caps.extensions.gl_ext_framebuffer_blit) &&
       (!Version.lt caps.version (.GL 3 1) || !Version.lt caps.version (.ES 3 0) ||
        caps.extensions.gl_arb_uniform_buffer_object) &&
       (!Version.lt caps.version (.GL 3 0) || !Version.lt caps.version (.ES 3 0) ||
        (caps.extensions.gl_arb_vertex_array_object ||
         caps.extensions.gl_apple_vertex_array_object ||
         caps.extensions.gl_oes_vertex_array_object))))
    ∧ (∀ c : Context, Context.new caps = .ok c →
        c.context_lost = false ∧ c.capabilities = caps) := by
  constructor
  · rw [new_isOk, check_isOk, vbo_floor, shader_objects_floor, fbo_floor,
      blit_floor, ubo_floor, vao_floor]
  · intro c hc
    unfold Context.new at hc
    cases h : check_minimal_requirements caps <;> rw [h] at hc
    · cases hc
    · cases hc
      exact ⟨rfl, rfl⟩

/-- A capability snapshot with an old GL version and no extensions at all:
below every floor. -/
def caps_none : Capabilities :=
  { version := .GL 1 0
    extensions :=
      ⟨false, false, false, false, false, false, false, false, false, false,
       false, false⟩ }

/-- A capability snapshot reporting GL 4.5 with no extensions: meets every
floor by version alone. -/
def caps_full : Capabilities :=
  { version := .GL 4 5
    extensions :=
      ⟨false, false, false, false, false, false, false, false, false, false,
       false, false⟩ }

/-- Witness for C3: a snapshot below every floor is rejected, and one whose
version meets every floor (with no extensions) is accepted. -/
theorem capability_gate_witness :
    (Context.new caps_none).isOk = false ∧ (Context.new caps_full).isOk = true := by
  refine ⟨?_, ?_⟩
  · rw [(capability_gate caps_none).1]
    decide
  · rw [(capability_gate caps_full).1]
    decide

/-- C4 fails on the code: `Context::rebuild` is a TODO stub whose body is
`Ok(())`; it does not clear the context-lost flag, so after a rebuild the
very next `swap_buffers` still fails fast with `ContextLost` and never
reaches the native swap — the backend does not return to Active. -/
theorem rebuild_stub_leaves_context_lost :
    Context.rebuild { context_lost := true, capabilities := caps_full } =
      { context_lost := true, capabilities := caps_full }
    ∧ ((Context.rebuild { context_lost := true, capabilities := caps_full
          }).swap_buffers .ok).result = .error .contextLost
    ∧ ((Context.rebuild { context_lost := true, capabilities := caps_full
          }).swap_buffers .ok).native_invoked = false :=
  ⟨rfl, rfl, rfl⟩

/-- C5: `swap_buffers` bails immediately with the distinguished
`ContextLost` error, without invoking the native swap, whenever the flag is
already set; otherwise it invokes the native swap and sets the flag exactly
when the native swap reports a lost context (returning `ContextLost` then,
an ordinary chained error for other native failures, and success
otherwise); `ContextLost` is distinct from every other error value. -/
theorem swap_buffers_contract (c : Context) (native : Context.NativeSwap) :
    (c.context_lost = true →
       c.swap_buffers native =
         { ctx := c, result := .error .contextLost, native_invoked := false })
    ∧ (c.context_lost = false →
       (c.swap_buffers native).native_invoked = true
       ∧ ((c.swap_buffers native).ctx.context_lost = true ↔
            native = .contextLost)
       ∧ (native = .contextLost →
            (c.swap_buffers native).result = .error .contextLost
            ∧ (c.swap_buffers native).ctx = { c with context_lost := true })
       ∧ (∀ msg, native = .otherError msg →
            (c.swap_buffers native).result =
              .error (.other ("unable to swap buffers: " ++ msg)))
       ∧ (native = .ok →
            c.swap_buffers native =
              { ctx := c, result := .ok (), native_invoked := true }))
    ∧ (∀ msg, Context.GError.contextLost ≠ Context.GError.other msg) := by
  refine ⟨?_, ?_, ?_⟩
  · intro hlost
    simp [Context.swap_buffers, hlost]
  · intro hlive
    cases native <;> simp [Context.swap_buffers, hlive]
  · intro msg hmsg
    cases hmsg

/-- Witness for C5: with the flag clear, a native lost report sets the flag
and returns the distinguished error; with the flag already set, the native
swap is not invoked. -/
theorem swap_buffers_contract_witness :
    (({ context_lost := false, capabilities := caps_full } :
        Context).swap_buffers .contextLost).ctx.context_lost = true
    ∧ (({ context_lost := true, capabilities := caps_full } :
        Context).swap_buffers .ok).native_invoked = false := by
  refine ⟨?_, ?_⟩
  · exact ((swap_buffers_contract
      { context_lost := false, capabilities := caps_full }
      .contextLost).2.1 rfl).2.1.mpr rfl
  · exact congrArg Context.SwapOutcome.native_invoked
      ((swap_buffers_contract
        { context_lost := true, capabilities := caps_full } .ok).1 rfl)

/-- C6: `update_vertex_buffer`, `update_index_buffer` and `update_texture`
fail with the Not-Found error exactly when the registry does not know the
handle; on success they append the data bytes to the front arena and push
exactly one matching Update command carrying the arena offset at which the
bytes were placed; on failure the whole state — command log and arena
included — is untouched. -/
theorem update_not_found_contract (s : VideoState) (h ht : Handle)
    (o : Nat) (a : Aabb2) (d : List Nat) :
    ((s.update_vertex_buffer h o d).1 =
        .error (.handleNotFound h.index h.generation) ↔ s.meshes.get h = none)
    ∧ ((s.meshes.get h).isSome = true →
        s.update_vertex_buffer h o d =
          (.ok (), { s with frames := { s.frames with front :=
            { cmds := s.frames.front.cmds ++
                [Command.UpdateVertexBuffer h o s.frames.front.bufs.length]
              bufs := s.frames.front.bufs ++ d } } }))
    ∧ (s.meshes.get h = none →
        s.update_vertex_buffer h o d =
          (.error (.handleNotFound h.index h.generation), s))
    ∧ ((s.update_index_buffer h o d).1 =
        .error (.handleNotFound h.index h.generation) ↔ s.meshes.get h = none)
    ∧ ((s.meshes.get h).isSome = true →
        s.update_index_buffer h o d =
          (.ok (), { s with frames := { s.frames with front :=
            { cmds := s.frames.front.cmds ++
                [Command.UpdateIndexBuffer h o s.frames.front.bufs.length]
              bufs := s.frames.front.bufs ++ d } } }))
    ∧ (s.meshes.get h = none →
        s.update_index_buffer h o d =
          (.error (.handleNotFound h.index h.generation), s))
    ∧ ((s.update_texture ht a d).1 =
        .error (.handleNotFound ht.index ht.generation) ↔
          s.textures.get ht = none)
    ∧ ((s.textures.get ht).isSome = true →
        s.update_texture ht a d =
          (.ok (), { s with frames := { s.frames with front :=
            { cmds := s.frames.front.cmds ++
                [Command.UpdateTexture ht a s.frames.front.bufs.length]
              bufs := s.frames.front.bufs ++ d } } }))
    ∧ (s.textures.get ht = none →
        s.update_texture ht a d =
          (.error (.handleNotFound ht.index ht.generation), s)) := by
  refine ⟨?_, ?_, ?_, ?_, ?_, ?_, ?_, ?_, ?_⟩
  · cases hg : s.meshes.get h <;>
      simp [VideoState.update_vertex_buffer, Frame.push, Frame.extend_from_slice, hg]
  · cases hg : s.meshes.get h <;>
      simp [VideoState.update_vertex_buffer, Frame.push, Frame.extend_from_slice, hg]
  · cases hg : s.meshes.get h <;>
      simp [VideoState.update_vertex_buffer, Frame.push, Frame.extend_from_slice, hg]
  · cases hg : s.meshes.get h <;>
      simp [VideoState.update_index_buffer, Frame.push, Frame.extend_from_slice, hg]
  · cases hg : s.meshes.get h <;>
      simp [VideoState.update_index_buffer, Frame.push, Frame.extend_from_slice, hg]
  · cases hg : s.meshes.get h <;>
      simp [VideoState.update_index_buffer, Frame.push, Frame.extend_from_slice, hg]
  · cases hg : s.textures.get ht <;>
      simp [VideoState.update_texture, Frame.push, Frame.extend_from_slice, hg]
  · cases hg : s.textures.get ht <;>
      simp [VideoState.update_texture, Frame.push, Frame.extend_from_slice, hg]
  · cases hg : s.textures.get ht <;>
      simp [VideoState.update_texture, Frame.push, Frame.extend_from_slice, hg]

/-- A mesh parameter record used for concrete witnesses. -/
def demo_mesh_params : MeshParams := ⟨12, 24⟩

/-- A texture parameter record used for concrete witnesses. -/
def demo_texture_params : TextureParams := ⟨4, 4⟩

/-- A texel region used for concrete witnesses. -/
def demo_area : Aabb2 := ⟨(0, 0), (2, 2)⟩

/-- A state holding one live mesh at slot 0 and one live texture at slot 0,
used for concrete witnesses. -/
def demo_state : VideoState :=
  { VideoState.new with
      meshes := ⟨⟨[(0, some demo_mesh_params)]⟩⟩
      textures := ⟨⟨[(0, some demo_texture_params)]⟩⟩ }

/-- Witness for C6: in `demo_state`, updating the live mesh handle succeeds
and updating a stale generation of it fails with the Not-Found error while
leaving the state untouched. -/
theorem update_not_found_contract_witness :
    demo_state.update_vertex_buffer ⟨0, 0⟩ 4 [7, 8] =
      (.ok (), { demo_state with frames := { demo_state.frames with front :=
        { cmds := [Command.UpdateVertexBuffer ⟨0, 0⟩ 4 0], bufs := [7, 8] } } })
    ∧ demo_state.update_vertex_buffer ⟨0, 1⟩ 4 [7, 8] =
      (.error (.handleNotFound 0 1), demo_state) := by
  refine ⟨?_, ?_⟩
  · have hok := (update_not_found_contract demo_state ⟨0, 0⟩ ⟨0, 0⟩ 4
      demo_area [7, 8]).2.1 (by decide)
    simpa [demo_state, VideoState.new, Frame.empty] using hok
  · exact (update_not_found_contract demo_state ⟨0, 1⟩ ⟨0, 1⟩ 4
      demo_area [7, 8]).2.2.1 (by decide)

/-- C8: in the post-update hook, when the framebuffer pixel dimensions
differ from those recorded at the previous tick, the resize side effect
comes first and the already-recorded back log is then dispatched against
the new dimensions (which also become the recorded ones); when they are
unchanged, no resize happens and dispatch uses the recorded dimensions. -/
theorem post_update_resize_then_dispatch (last dims : Nat × Nat)
    (s : VideoState) :
    (dims ≠ last →
       (on_post_update last dims s).1 = dims
       ∧ (on_post_update last dims s).2.2 =
           [Effect.resize dims, Effect.dispatch s.frames.back.cmds dims])
    ∧ (dims = last →
       (on_post_update last dims s).1 = last
       ∧ (on_post_update last dims s).2.2 =
           [Effect.dispatch s.frames.back.cmds last]
       ∧ ∀ d, Effect.resize d ∉ (on_post_update last dims s).2.2) := by
  refine ⟨?_, ?_⟩
  · intro hne
    simp [on_post_update, hne]
  · intro heq
    simp [on_post_update, heq]

/-- Witness for C8: with recorded dimensions (4, 3), a tick reporting
(8, 6) resizes first and dispatches against (8, 6); a tick reporting (4, 3)
only dispatches, against (4, 3). -/
theorem post_update_resize_then_dispatch_witness :
    (on_post_update (4, 3) (8, 6) demo_state).2.2 =
      [Effect.resize (8, 6),
       Effect.dispatch demo_state.frames.back.cmds (8, 6)]
    ∧ (on_post_update (4, 3) (4, 3) demo_state).2.2 =
      [Effect.dispatch demo_state.frames.back.cmds (4, 3)] := by
  refine ⟨?_, ?_⟩
  · exact ((post_update_resize_then_dispatch (4, 3) (8, 6) demo_state).1
      (by decide)).2
  · exact ((post_update_resize_then_dispatch (4, 3) (4, 3) demo_state).2
      rfl).2.1

/-- C9: when validation of the shader params against the sources fails,
`create_shader` returns that error synchronously and the state is exactly
as before — no shader pool slot, no `CreateShader` command; when validation
succeeds, a slot holding a copy of the params is allocated and exactly one
`CreateShader` command carrying the new handle, the params and both sources
is pushed. -/
theorem create_shader_validation (s : VideoState) (p : ShaderParams)
    (vs fs : String) :
    (∀ e, p.validate vs fs = .error e → s.create_shader p vs fs = (.error e, s))
    ∧ (p.validate vs fs = .ok () →
        s.create_shader p vs fs =
          (.ok (s.shaders.create p).1,
            { s with
                shaders := (s.shaders.create p).2
                frames := { s.frames with
                  front := s.frames.front.push
                    (Command.CreateShader (s.shaders.create p).1 p vs fs) } })
        ∧ (s.shaders.create p).2.get (s.shaders.create p).1 = some p) := by
  constructor
  · intro e he
    simp [VideoState.create_shader, he]
  · intro hok
    exact ⟨by simp [VideoState.create_shader, hok],
      ObjectPool.get_create s.shaders p⟩

/-- The vertex shader source used for concrete witnesses. -/
def demo_vs : String := "void main() \x7b \x7d"

/-- The fragment shader source used for concrete witnesses. -/
def demo_fs : String := "void main() \x7b \x7d"

/-- Witness for C9: a malformed parameter set is rejected with the state
unchanged; a well-formed one yields handle (0, 0) from the fresh pool. -/
theorem create_shader_validation_witness :
    VideoState.new.create_shader ⟨[], true⟩ demo_vs demo_fs =
      (.error .invalidShader, VideoState.new)
    ∧ (VideoState.new.create_shader ⟨[], false⟩ demo_vs demo_fs).1 =
      .ok ⟨0, 0⟩ := by
  refine ⟨?_, ?_⟩
  · exact (create_shader_validation VideoState.new ⟨[], true⟩ demo_vs
      demo_fs).1 .invalidShader rfl
  · rw [((create_shader_validation VideoState.new ⟨[], false⟩ demo_vs
      demo_fs).2 rfl).1]
    rfl

/-- C10: `set_attachments` rejects a color list whose length is at least
`MAX_FRAMEBUFFER_ATTACHMENTS` — so a list exactly filling the attachment
array is rejected — with the `TooManyColorAttachments` error and the setup
unchanged; on success slot `i` becomes `Some(colors[i])` for
`i < colors.len()`, every later slot is reset to `None`, the depth/stencil
attachment is stored, and all other fields are untouched. -/
theorem set_attachments_contract (s : SurfaceSetup)
    (colors : List RenderTextureHandle) (ds : Option RenderTextureHandle)
    (hlen : s.colors.length = MAX_FRAMEBUFFER_ATTACHMENTS) :
    (colors.length ≥ MAX_FRAMEBUFFER_ATTACHMENTS →
       s.set_attachments colors ds = (s, .error .TooManyColorAttachments))
    ∧ (colors.length = MAX_FRAMEBUFFER_ATTACHMENTS →
       s.set_attachments colors ds = (s, .error .TooManyColorAttachments))
    ∧ (colors.length < MAX_FRAMEBUFFER_ATTACHMENTS →
       (s.set_attachments colors ds).2 = .ok ()
       ∧ (s.set_attachments colors ds).1.depth_stencil = ds
       ∧ (s.set_attachments colors ds).1.colors.length =
           MAX_FRAMEBUFFER_ATTACHMENTS
       ∧ (∀ i, ∀ hi : i < colors.length,
            (s.set_attachments colors ds).1.colors[i]? =
              some (some (colors.get ⟨i, hi⟩)))
       ∧ (∀ i, colors.length ≤ i → i < MAX_FRAMEBUFFER_ATTACHMENTS →
            (s.set_attachments colors ds).1.colors[i]? = some none)
       ∧ (s.set_attachments colors ds).1.clear_color = s.clear_color
       ∧ (s.set_attachments colors ds).1.clear_depth = s.clear_depth
       ∧ (s.set_attachments colors ds).1.clear_stencil = s.clear_stencil
       ∧ (s.set_attachments colors ds).1.order = s.order
       ∧ (s.set_attachments colors ds).1.sequence = s.sequence) := by
  refine ⟨?_, ?_, ?_⟩
  · intro hge
    simp [SurfaceSetup.set_attachments, hge]
  · intro heq
    simp [SurfaceSetup.set_attachments, le_of_eq heq.symm]
  · intro hlt
    have hnot : ¬colors.length ≥ MAX_FRAMEBUFFER_ATTACHMENTS := not_le.mpr hlt
    refine ⟨?_, ?_, ?_, ?_, ?_, ?_, ?_, ?_, ?_, ?_⟩
    · simp [SurfaceSetup.set_attachments, hnot]
    · simp [SurfaceSetup.set_attachments, hnot]
    · simp [SurfaceSetup.set_attachments, hnot, hlen]
    · intro i hi
      have hiM : i < s.colors.length := by
        rw [hlen]; exact lt_trans hi hlt
      simp [SurfaceSetup.set_attachments, hnot, List.getElem?_range, hiM,
        List.getElem?_eq_getElem hi]
    · intro i hle hiM
      rw [← hlen] at hiM
      simp [SurfaceSetup.set_attachments, hnot, List.getElem?_range, hiM,
        List.getElem?_eq_none hle]
    · simp [SurfaceSetup.set_attachments, hnot]
    · simp [SurfaceSetup.set_attachments, hnot]
    · simp [SurfaceSetup.set_attachments, hnot]
    · simp [SurfaceSetup.set_attachments, hnot]
    · simp [SurfaceSetup.set_attachments, hnot]

/-- Witness for C10: on the default setup (whose attachment array has
exactly `MAX_FRAMEBUFFER_ATTACHMENTS` slots), a one-element color list is
accepted while a list of exactly `MAX_FRAMEBUFFER_ATTACHMENTS` handles is
rejected with the setup unchanged. -/
theorem set_attachments_contract_witness :
    (SurfaceSetup.default.set_attachments [⟨0, 0⟩] none).2 = .ok ()
    ∧ SurfaceSetup.default.set_attachments
        (List.replicate MAX_FRAMEBUFFER_ATTACHMENTS ⟨0, 0⟩) none =
      (SurfaceSetup.default, .error .TooManyColorAttachments) := by
  have hlen : SurfaceSetup.default.colors.length = MAX_FRAMEBUFFER_ATTACHMENTS := by
    simp [SurfaceSetup.default]
  refine ⟨?_, ?_⟩
  · exact ((set_attachments_contract SurfaceSetup.default [⟨0, 0⟩] none
      hlen).2.2 (by decide)).1
  · exact (set_attachments_contract SurfaceSetup.default
      (List.replicate MAX_FRAMEBUFFER_ATTACHMENTS ⟨0, 0⟩) none hlen).2.1
      (by simp)

end Crayon
